import Mathlib

/-!
Verification of the OTP subsystem of the gym user-management service.

The definitions below are a shallow embedding of the Go source:
  * `internal/cache` (the `RedisClient` wrapper and the package-level
    `cache.Get`/`cache.Delete` helpers),
  * `internal/service/otp_service.go` (`redisRateLimiter`, `OTPService`),
  * `internal/auth` (`VerifyOTP`, `markOTPAsUsed` over the gorm store),
  * `GymOwnerService.VerifyOTP`,
  * the OTP section of `config.LoadConfig`.

Time is modelled as a natural number of minutes (all TTLs in the OTP code
are whole minutes); a cache entry is live at instant `now` iff
`now < expiresAt`.  A Redis outage is modelled by the `down` flag: every
command on a down client returns a connection error, matching go-redis.
-/

set_option autoImplicit false

namespace GymOTP

/-- Go error values that the modelled code paths can produce.
`otpExpired` is `models.ErrOTPExpired`, `invalidOTP` is
`models.ErrInvalidOTP` (and the identically-worded `service.ErrInvalidOTP`),
`rateLimitExceeded` is `service.ErrRateLimitExceeded` (defined in the source
but never returned), `invalidOrExpiredOTP` is the
`fmt.Errorf("invalid or expired OTP")` of `auth.VerifyOTP`,
`redisNil` is go-redis key-absent, `redisConnErr` any other redis failure,
`recordNotFound` a repository `GetByID` miss, `uuidParseError` a
`uuid.Parse` failure. -/
inductive GoError where
  | redisConnErr
  | redisNil
  | otpExpired
  | invalidOTP
  | rateLimitExceeded
  | invalidOrExpiredOTP
  | uuidParseError
  | recordNotFound
  deriving DecidableEq, Repr

/-- One Redis key/value pair with its absolute expiry instant. -/
structure RedisEntry where
  key : String
  value : String
  expiresAt : Nat
  deriving DecidableEq, Repr

/-- State of the Redis server: its live entries and whether it is
reachable.  When `down` is true every command errors. -/
structure RedisState where
  entries : List RedisEntry
  down : Bool
  deriving DecidableEq, Repr

/-- The value currently held under `key`, if a live (unexpired) entry
exists. -/
def RedisState.lookup (r : RedisState) (now : Nat) (key : String) : Option String :=
  (r.entries.find? (fun e => e.key == key && decide (now < e.expiresAt))).map (fun e => e.value)

/-- Remove every entry stored under `key` (redis DEL). -/
def RedisState.removeKey (r : RedisState) (key : String) : RedisState :=
  { r with entries := r.entries.filter (fun e => e.key != key) }

/-- Raw redis GET: key absent (or only expired) yields the `redis.Nil`
error, exactly as `Client.Get(ctx, key).Result()` does. -/
def redisRawGet (r : RedisState) (now : Nat) (key : String) : Except GoError String :=
  if r.down then .error .redisConnErr
  else
    match r.lookup now key with
    | none => .error .redisNil
    | some v => .ok v

/-- Raw redis SET with TTL: replaces any previous entry under the key. -/
def redisRawSet (r : RedisState) (now : Nat) (key value : String) (ttl : Nat) :
    Except GoError RedisState :=
  if r.down then .error .redisConnErr
  else .ok { down := r.down, entries := ⟨key, value, now + ttl⟩ :: (r.removeKey key).entries }

/-- Raw redis DEL (deleting an absent key succeeds). -/
def redisRawDel (r : RedisState) (key : String) : Except GoError RedisState :=
  if r.down then .error .redisConnErr else .ok (r.removeKey key)

/-- Raw redis EXISTS. -/
def redisRawExists (r : RedisState) (now : Nat) (key : String) : Except GoError Bool :=
  if r.down then .error .redisConnErr else .ok (r.lookup now key).isSome

/-- Marshalling of a Go string by encoding/json: the text is wrapped in
quotes (quote and backslash characters are escaped; the OTP strings at
issue contain neither, and control-character escapes are not needed for
them either). -/
def jsonEscapeChar (c : Char) : String :=
  if c = '\\' then "\\\\"
  else if c = '\"' then "\\\""
  else String.singleton c

/-- The result of json.Marshal applied to a string value, as `redisClient.Set` produces it. -/
def jsonMarshalString (s : String) : String :=
  "\"" ++ String.join (s.data.map jsonEscapeChar) ++ "\""

/-- Model of `redisClient.Set` (internal/cache): JSON-marshals the value and stores
the marshalled bytes. -/
def clientSet (r : RedisState) (now : Nat) (key value : String) (ttl : Nat) :
    Except GoError RedisState :=
  redisRawSet r now key (jsonMarshalString value) ttl

/-- Model of `redisClient.Get` (internal/cache): translates `redis.Nil` into the
empty string with no error; other errors propagate.  The stored bytes are
returned raw, without unmarshalling. -/
def clientGet (r : RedisState) (now : Nat) (key : String) : Except GoError String :=
  match redisRawGet r now key with
  | .error .redisNil => .ok ""
  | .error e => .error e
  | .ok v => .ok v

/-- Model of `redisClient.Delete` (internal/cache). -/
def clientDelete (r : RedisState) (key : String) : Except GoError RedisState :=
  redisRawDel r key

/-- Model of `redisClient.Exists` (internal/cache). -/
def clientExists (r : RedisState) (now : Nat) (key : String) : Except GoError Bool :=
  redisRawExists r now key

/-- The package-level `cache.Get` (internal/cache/cache.go): returns the raw
result of redis GET, so an absent key is an error (`redis.Nil`), unlike
`redisClient.Get`. -/
def cacheGet (r : RedisState) (now : Nat) (key : String) : Except GoError String :=
  redisRawGet r now key

/-- The package-level `cache.Delete` (internal/cache/cache.go). -/
def cacheDelete (r : RedisState) (key : String) : Except GoError RedisState :=
  redisRawDel r key

/-! ### Configuration (`LoadConfig`, OTP section) -/

/-- The `OTP` section of `config.Config`. -/
structure OTPConfig where
  length : Nat
  expiryMinutes : Nat
  rateLimit : Nat
  defaultOTP : String
  deriving DecidableEq, Repr

/-- Model of `getEnvOrDefault`: the environment value when set and non-empty,
otherwise the default.  The environment is a total map where the empty
string means unset, matching `os.Getenv`. -/
def getEnvOrDefault (env : String → String) (key dflt : String) : String :=
  if env key ≠ "" then env key else dflt

/-- Model of `getEnvAsIntOrDefault`: parse the environment value as an integer,
falling back to the default when unset or unparsable.  The OTP settings
are non-negative, so the value is modelled as `Nat`. -/
def getEnvAsIntOrDefault (env : String → String) (key : String) (dflt : Nat) : Nat :=
  if env key ≠ "" then (env key).toNat?.getD dflt else dflt

/-- The OTP defaults set at the end of `LoadConfig`
(`OTP_LENGTH` 6, `OTP_EXPIRY_MINUTES` 5, `OTP_RATE_LIMIT` 3,
`OTP_DEFAULT` "123456"). -/
def loadOTPConfig (env : String → String) : OTPConfig where
  length := getEnvAsIntOrDefault env "OTP_LENGTH" 6
  expiryMinutes := getEnvAsIntOrDefault env "OTP_EXPIRY_MINUTES" 5
  rateLimit := getEnvAsIntOrDefault env "OTP_RATE_LIMIT" 3
  defaultOTP := getEnvOrDefault env "OTP_DEFAULT" "123456"

/-! ### Data model: targets, accounts, durable OTP records -/

/-- Enumeration `models.OTPTarget`. -/
inductive OTPTarget where
  | gymOwner
  | trainer
  | customer
  deriving DecidableEq, Repr

/-- The string value of an `OTPTarget`, as `fmt.Sprintf("%s", t)` prints
it. -/
def OTPTarget.toStr : OTPTarget → String
  | .gymOwner => "gym_owner"
  | .trainer => "trainer"
  | .customer => "customer"

/-- The fields of `models.Trainer` that the OTP flow touches. -/
structure Trainer where
  id : String
  isActive : Bool
  deriving DecidableEq, Repr

/-- The fields of `models.Customer` that the OTP flow touches. -/
structure Customer where
  id : String
  isActive : Bool
  deriving DecidableEq, Repr

/-- Record `models.GymOwner` (the fields relevant to verification and the frame
property that verification leaves them all unchanged). -/
structure GymOwner where
  id : String
  fullName : String
  email : String
  phone : String
  isActive : Bool
  deriving DecidableEq, Repr

/-- A durable `models.OTP` row as `auth.VerifyOTP` queries it. -/
structure OTPRecord where
  userID : String
  code : String
  otpType : String
  used : Bool
  expiresAt : Nat
  deriving DecidableEq, Repr

/-- Support for `uuid.Parse` on the canonical 36-character `8-4-4-4-12` form (the only
form the OTP flow ever feeds it); any other string fails to parse. -/
def isHexDigit (c : Char) : Bool :=
  c.isDigit || ('a' ≤ c && c ≤ 'f') || ('A' ≤ c && c ≤ 'F')

/-- Whether `s` is a canonical textual UUID. -/
def isCanonicalUUID (s : String) : Bool :=
  s.data.length == 36 &&
    (List.range 36).all (fun i =>
      let c := s.data.getD i 'x'
      if i == 8 || i == 13 || i == 18 || i == 23 then c == '-' else isHexDigit c)

/-- Model of `uuid.Parse` followed by `.String()`: the identifier round-trips as
itself on success. -/
def uuidParse (s : String) : Option String :=
  if isCanonicalUUID s then some s else none

/-! ### `redisRateLimiter` -/

/-- Model of `strconv.Atoi` as `IsAllowed` uses it: on a parse failure the error is
discarded and the count is zero.  Counters written by `Incr` are natural
numbers. -/
def goAtoiOrZero (s : String) : Nat :=
  s.toNat?.getD 0

/-- Model of `redisRateLimiter.IsAllowed`: read the counter under `prefixStr+key`;
when the read errors (Redis down) the request is allowed (fail open),
otherwise the counter must be below the limit.  An absent key reads back
as the empty string via `redisClient.Get` and parses to zero. -/
def isAllowed (r : RedisState) (now : Nat) (prefixStr key : String) (limit : Nat) : Bool :=
  match clientGet r now (prefixStr ++ key) with
  | .error _ => true
  | .ok count => goAtoiOrZero count < limit

/-! ### `OTPService` -/

/-- The state an `OTPService` call can read or write: the Redis server,
the trainer and customer tables, and the current instant. -/
structure OTPServiceState where
  redis : RedisState
  trainers : List Trainer
  customers : List Customer
  now : Nat
  deriving DecidableEq, Repr

/-- The rate-limit key `otp:ratelimit:<target>`. -/
def rateLimitKey (target : String) : String :=
  "otp:ratelimit:" ++ target

/-- The OTP cache key `otp:<targetType>:<target>`. -/
def otpKey (targetType : OTPTarget) (target : String) : String :=
  "otp:" ++ targetType.toStr ++ ":" ++ target

/-- Model of `OTPService.generateRandomOTP`: the configured default code when one
is set, otherwise `length` pseudorandom decimal digits.  The generator is
modelled as a stream of draws; `rand i % 10` is the value
`rand.Intn(10)` returns for the i-th draw. -/
def generateRandomOTP (cfg : OTPConfig) (rand : Nat → Nat) : String :=
  if cfg.defaultOTP ≠ "" then cfg.defaultOTP
  else String.mk ((List.range cfg.length).map (fun i => Char.ofNat (rand i % 10 + 48)))

/-- Model of `OTPService.GenerateOTP`: check the rate-limit key (propagating any
Redis error, and returning `models.ErrOTPExpired` when the key exists),
generate the code, store it under the OTP key with the expiry TTL, then
set the rate-limit key with the rate-limit TTL. -/
def generateOTP (cfg : OTPConfig) (rand : Nat → Nat) (s : OTPServiceState)
    (target : String) (targetType : OTPTarget) :
    Except GoError (String × OTPServiceState) :=
  match clientExists s.redis s.now (rateLimitKey target) with
  | .error e => .error e
  | .ok true => .error .otpExpired
  | .ok false =>
    let otp := generateRandomOTP cfg rand
    match clientSet s.redis s.now (otpKey targetType target) otp cfg.expiryMinutes with
    | .error e => .error e
    | .ok r1 =>
      match clientSet r1 s.now (rateLimitKey target) "1" cfg.rateLimit with
      | .error e => .error e
      | .ok r2 => .ok (otp, { s with redis := r2 })

/-- Model of `CustomerRepository.GetByID` over the customer table. -/
def customersGetByID (cs : List Customer) (id : String) : Except GoError Customer :=
  match cs.find? (fun c => c.id == id) with
  | none => .error .recordNotFound
  | some c => .ok c

/-- Model of `TrainerRepository.GetByID` over the trainer table. -/
def trainersGetByID (ts : List Trainer) (id : String) : Except GoError Trainer :=
  match ts.find? (fun t => t.id == id) with
  | none => .error .recordNotFound
  | some t => .ok t

/-- Repository `Update`: save the customer row back under its id. -/
def customersUpdate (cs : List Customer) (c : Customer) : List Customer :=
  cs.map (fun u => if u.id == c.id then c else u)

/-- Repository `Update`: save the trainer row back under its id. -/
def trainersUpdate (ts : List Trainer) (t : Trainer) : List Trainer :=
  ts.map (fun u => if u.id == t.id then t else u)

/-- Model of `OTPService.activateUser`: load the account selected by the target
type (`trainer` from the trainer repository, every other type from the
customer repository), set `IsActive`, and save it. -/
def activateUser (s : OTPServiceState) (userID : String) (targetType : OTPTarget) :
    Except GoError OTPServiceState :=
  match targetType with
  | .trainer =>
    match trainersGetByID s.trainers userID with
    | .error e => .error e
    | .ok t => .ok { s with trainers := trainersUpdate s.trainers { t with isActive := true } }
  | _ =>
    match customersGetByID s.customers userID with
    | .error e => .error e
    | .ok c => .ok { s with customers := customersUpdate s.customers { c with isActive := true } }

/-- Model of `OTPService.VerifyOTP`: read the cached code (an absent key reads back
as the empty string), fail with `ErrOTPExpired` on an empty read and
`ErrInvalidOTP` on a mismatch; on a match delete the cache entry, parse
the target as a UUID, and activate the account.  The pair returned is the
Go result together with the state after whatever writes happened (writes
are not rolled back when a later step fails). -/
def verifyOTP (s : OTPServiceState) (target : String) (targetType : OTPTarget)
    (otp : String) : Except GoError Bool × OTPServiceState :=
  let key := otpKey targetType target
  match clientGet s.redis s.now key with
  | .error e => (.error e, s)
  | .ok storedOTP =>
    if storedOTP = "" then (.error .otpExpired, s)
    else if storedOTP ≠ otp then (.error .invalidOTP, s)
    else
      match clientDelete s.redis key with
      | .error e => (.error e, s)
      | .ok r1 =>
        let s1 := { s with redis := r1 }
        match uuidParse target with
        | none => (.error .uuidParseError, s1)
        | some userID =>
          match activateUser s1 userID targetType with
          | .error e => (.error e, s1)
          | .ok s2 => (.ok true, s2)

/-! ### The `auth` package verification path (internal/auth) -/

/-- The state `auth.VerifyOTP` touches: the global Redis handle, the gorm
`otps` table, and the current instant. -/
structure AuthState where
  redis : RedisState
  db : List OTPRecord
  now : Nat
  deriving DecidableEq, Repr

/-- The cache key `otp:<userID>:<otpType>` used by the `auth` package. -/
def authOtpKey (userID otpType : String) : String :=
  "otp:" ++ userID ++ ":" ++ otpType

/-- The gorm query of `auth.VerifyOTP`:
`user_id = ? AND code = ? AND type = ? AND used = false AND expires_at > now`,
taking the first matching row. -/
def dbFindValidOTP (db : List OTPRecord) (now : Nat) (userID code otpType : String) :
    Option OTPRecord :=
  db.find? (fun o =>
    o.userID == userID && o.code == code && o.otpType == otpType &&
      o.used == false && decide (now < o.expiresAt))

/-- Model of `auth.markOTPAsUsed`: set `used` on every row matching
(userID, code, type), then delete the cache key; a cache-delete failure is
logged and ignored. -/
def markOTPAsUsed (st : AuthState) (userID code otpType : String) : AuthState :=
  let db1 := st.db.map (fun o =>
    if o.userID == userID && o.code == code && o.otpType == otpType then
      { o with used := true }
    else o)
  let redis1 :=
    match cacheDelete st.redis (authOtpKey userID otpType) with
    | .error _ => st.redis
    | .ok r => r
  { st with db := db1, redis := redis1 }

/-- The durable-store branch of `auth.VerifyOTP`, reached when the cache
read errors or the cached value differs from the submitted code. -/
def authVerifyFallback (st : AuthState) (userID code otpType : String) :
    Except GoError Bool × AuthState :=
  match dbFindValidOTP st.db st.now userID code otpType with
  | none => (.error .invalidOrExpiredOTP, st)
  | some _ => (.ok true, markOTPAsUsed st userID code otpType)

/-- Model of `auth.VerifyOTP`: check the cache first (via the package-level
`cache.Get`, for which an absent key is an error); when the read succeeds
and the value equals the submitted code, mark the record used and succeed;
otherwise fall back to the durable store. -/
def authVerifyOTP (st : AuthState) (userID code otpType : String) :
    Except GoError Bool × AuthState :=
  match cacheGet st.redis st.now (authOtpKey userID otpType) with
  | .ok cachedCode =>
    if cachedCode = code then (.ok true, markOTPAsUsed st userID code otpType)
    else authVerifyFallback st userID code otpType
  | .error _ => authVerifyFallback st userID code otpType

/-! ### `GymOwnerService.VerifyOTP` -/

/-- The state `GymOwnerService.VerifyOTP` can touch: the Redis server and
the gym-owner table. -/
structure GymOwnerState where
  redis : RedisState
  owners : List GymOwner
  now : Nat
  deriving DecidableEq, Repr

/-- Model of `GymOwnerService.VerifyOTP`: read `otp:gym_owner:<ownerID>` through
`redisClient.Get` (absent key reads back as the empty string; a read
error is mapped to `ErrInvalidOTP`), compare it with the submitted code,
and on a match delete the key (a delete failure is only logged) and
return success.  The account-activation block in the source is commented
out, so the owner table is never touched. -/
def gymOwnerVerifyOTP (st : GymOwnerState) (ownerID otp : String) :
    Except GoError Unit × GymOwnerState :=
  let key := "otp:gym_owner:" ++ ownerID
  match clientGet st.redis st.now key with
  | .error _ => (.error .invalidOTP, st)
  | .ok storedOTP =>
    if storedOTP ≠ otp then (.error .invalidOTP, st)
    else
      let redis1 :=
        match clientDelete st.redis key with
        | .error _ => st.redis
        | .ok r => r
      (.ok (), { st with redis := redis1 })

/-! ### Shared concrete inputs for the witnesses and counterexamples -/

/-- A canonical-form account identifier. -/
def uuidA : String := "123e4567-e89b-12d3-a456-426614174000"

/-- The OTP configuration produced by `LoadConfig` in an empty
environment. -/
def cfgDefault : OTPConfig := loadOTPConfig (fun _ => "")

/-- A reachable, empty Redis server. -/
def emptyRedis : RedisState := { entries := [], down := false }

/-- An unreachable Redis server. -/
def downRedis : RedisState := { entries := [], down := true }

/-- A service state with an empty, reachable cache and no accounts. -/
def emptyState : OTPServiceState :=
  { redis := emptyRedis, trainers := [], customers := [], now := 0 }

/-- A service state over an unreachable cache. -/
def downState : OTPServiceState :=
  { redis := downRedis, trainers := [], customers := [], now := 0 }

/-- An auth-path state holding one durable OTP row for `uuidA` that
expired at instant 5, observed at instant 9. -/
def expiredRowAuthState : AuthState :=
  { redis := emptyRedis,
    db := [{ userID := uuidA, code := "123456", otpType := "email", used := false,
             expiresAt := 5 }],
    now := 9 }

/-- A service state whose cache holds the raw (unmarshalled) code
`123456` for customer `uuidA`, with the matching inactive account. -/
def rawEntryState : OTPServiceState :=
  { redis := { entries := [⟨otpKey .customer uuidA, "123456", 5⟩], down := false },
    trainers := [], customers := [{ id := uuidA, isActive := false }], now := 0 }

/-- The state after the successful verification run on `rawEntryState`. -/
def rawEntryStateAfter : OTPServiceState :=
  (verifyOTP rawEntryState uuidA .customer "123456").2

/-- The state after a first successful `GenerateOTP` for target `t` on an
empty state. -/
def afterFirstGenerate : OTPServiceState :=
  match generateOTP cfgDefault (fun _ => 7) emptyState "t" .customer with
  | .ok (_, s1) => s1
  | .error _ => emptyState

/-- A fresh state holding only the inactive customer `uuidA`. -/
def oneCustomerState : OTPServiceState :=
  { redis := emptyRedis, trainers := [],
    customers := [{ id := uuidA, isActive := false }], now := 0 }

/-- The state after `GenerateOTP` for customer `uuidA` on
`oneCustomerState`. -/
def afterGenForCustomer : OTPServiceState :=
  match generateOTP cfgDefault (fun _ => 7) oneCustomerState uuidA .customer with
  | .ok (_, s1) => s1
  | .error _ => oneCustomerState

/-- The OTP configuration with the development override disabled. -/
def cfgNoOverride : OTPConfig := { cfgDefault with defaultOTP := "" }

/-- The state after `GenerateOTP` under `cfgNoOverride` with a constant
random stream drawing 7. -/
def afterGenNoOverride : OTPServiceState :=
  match generateOTP cfgNoOverride (fun _ => 7) emptyState "t" .customer with
  | .ok (_, s1) => s1
  | .error _ => emptyState

/-- A service state whose cache holds the raw code `123456` for the
non-UUID target `+15551234567`, with no accounts at all. -/
def phoneTargetState : OTPServiceState :=
  { redis := { entries := [⟨otpKey .customer "+15551234567", "123456", 5⟩], down := false },
    trainers := [], customers := [], now := 0 }

/-- A gym-owner state with one inactive owner and an empty cache. -/
def oneOwnerState : GymOwnerState :=
  { redis := emptyRedis,
    owners := [{ id := uuidA, fullName := "Ada", email := "ada.example", phone := "555",
                 isActive := false }],
    now := 0 }

/-! ### Lemmas about the embedding -/

theorem down_removeKey (r : RedisState) (key : String) :
    (r.removeKey key).down = r.down := rfl

theorem lookup_removeKey_self (r : RedisState) (now : Nat) (key : String) :
    (r.removeKey key).lookup now key = none := by
  simp only [RedisState.removeKey, RedisState.lookup, Option.map_eq_none']
  rw [List.find?_eq_none]
  intro e he
  rcases List.mem_filter.mp he with ⟨_, hne⟩
  simp only [bne_iff_ne, ne_eq] at hne
  simp [hne]

theorem lookup_removeKey_ne (r : RedisState) (now : Nat) (k key : String) (h : k ≠ key) :
    (r.removeKey key).lookup now k = r.lookup now k := by
  simp only [RedisState.removeKey, RedisState.lookup]
  congr 1
  rw [List.find?_filter]
  have hpred : (fun a : RedisEntry =>
      decide ((a.key != key) = true ∧ (a.key == k && decide (now < a.expiresAt)) = true))
      = (fun e : RedisEntry => e.key == k && decide (now < e.expiresAt)) := by
    funext e
    by_cases hek : e.key = key
    · have hkk : (key == k) = false := by
        simp only [beq_eq_false_iff_ne, ne_eq]
        exact fun q => h q.symm
      simp [hek, hkk]
    · simp only [hek, decide_eq_true_eq, Bool.decide_and]
      by_cases hq : e.key = k <;> simp [hq, hek]
      exact fun _ => h
  rw [hpred]

theorem clientDelete_ok (r : RedisState) (key : String) (r1 : RedisState)
    (h : clientDelete r key = .ok r1) : r.down = false ∧ r1 = r.removeKey key := by
  unfold clientDelete redisRawDel at h
  by_cases hd : r.down = true
  · simp [hd] at h
  · simp only [Bool.not_eq_true] at hd
    simp [hd] at h
    exact ⟨hd, h.symm⟩

theorem clientGet_down (r : RedisState) (now : Nat) (key : String) (hd : r.down = true) :
    clientGet r now key = .error .redisConnErr := by
  unfold clientGet redisRawGet
  simp [hd]

theorem clientGet_absent (r : RedisState) (now : Nat) (key : String)
    (hd : r.down = false) (hl : r.lookup now key = none) :
    clientGet r now key = .ok "" := by
  unfold clientGet redisRawGet
  simp [hd, hl]

theorem activateUser_ok_frame (s : OTPServiceState) (uid : String) (tt : OTPTarget)
    (s2 : OTPServiceState) (h : activateUser s uid tt = .ok s2) :
    s2.redis = s.redis ∧ s2.now = s.now := by
  unfold activateUser at h
  cases tt with
  | trainer =>
    cases hh : trainersGetByID s.trainers uid with
    | error e => rw [hh] at h; cases h
    | ok t => rw [hh] at h; cases h; exact ⟨rfl, rfl⟩
  | gymOwner =>
    cases hh : customersGetByID s.customers uid with
    | error e => rw [hh] at h; cases h
    | ok c => rw [hh] at h; cases h; exact ⟨rfl, rfl⟩
  | customer =>
    cases hh : customersGetByID s.customers uid with
    | error e => rw [hh] at h; cases h
    | ok c => rw [hh] at h; cases h; exact ⟨rfl, rfl⟩

/-- A `VerifyOTP` call that finds no live cache entry fails with
`ErrOTPExpired` and leaves the state untouched (the durable store is
never consulted: `OTPService` has no handle to it). -/
theorem verifyOTP_cacheMiss (s : OTPServiceState) (target : String) (tt : OTPTarget)
    (code : String) (hd : s.redis.down = false)
    (hl : s.redis.lookup s.now (otpKey tt target) = none) :
    verifyOTP s target tt code = (.error .otpExpired, s) := by
  simp only [verifyOTP]
  rw [clientGet_absent s.redis s.now (otpKey tt target) hd hl]
  rfl

/-! ### Claims -/

/-- C1 (amended): `OTPService.VerifyOTP` performs no durable-store
fallback: when the OTP cache key is absent it fails with `ErrOTPExpired`
and leaves the state untouched, whatever the durable store holds.  The
separate `auth.VerifyOTP` path does fall back on a cache read error to
the durable query (userID, code, type, used=false, expires_at>now),
succeeding exactly when a row matches and otherwise failing with the
single conflated invalid-or-expired error. -/
theorem claim_C1 :
    (∀ (s : OTPServiceState) (target : String) (tt : OTPTarget) (code : String),
        s.redis.down = false →
        s.redis.lookup s.now (otpKey tt target) = none →
        verifyOTP s target tt code = (.error .otpExpired, s)) ∧
    (∀ (st : AuthState) (userID code otpType : String) (e : GoError),
        cacheGet st.redis st.now (authOtpKey userID otpType) = .error e →
        authVerifyOTP st userID code otpType =
          (match dbFindValidOTP st.db st.now userID code otpType with
           | none => (.error .invalidOrExpiredOTP, st)
           | some _ => (.ok true, markOTPAsUsed st userID code otpType))) := by
  constructor
  · exact fun s target tt code hd hl => verifyOTP_cacheMiss s target tt code hd hl
  · intro st userID code otpType e hget
    unfold authVerifyOTP
    rw [hget]
    rfl

/-- Witness for C1: on an empty reachable cache the engine call returns
`ErrOTPExpired`, and the auth path facing an expired durable row returns
the conflated error. -/
theorem claim_C1_witness :
    verifyOTP emptyState uuidA .customer "123456" = (.error .otpExpired, emptyState) ∧
    authVerifyOTP expiredRowAuthState uuidA "123456" "email" =
      (.error .invalidOrExpiredOTP, expiredRowAuthState) := by
  constructor
  · exact claim_C1.1 emptyState uuidA .customer "123456" rfl rfl
  · exact (claim_C1.2 expiredRowAuthState uuidA "123456" "email" .redisNil rfl).trans rfl

/-- C1 counterexample: with the cache key absent and no durable row
anywhere (empty store), the claim requires `InvalidOTP`; the engine
returns `ErrOTPExpired`.  And where the claim requires a distinct
`OTPExpired` for a matching-but-expired durable row, the auth fallback
returns the conflated invalid-or-expired error instead. -/
theorem claim_C1_counterexample :
    (verifyOTP emptyState uuidA .customer "123456").1 = .error .otpExpired ∧
    decide (GoError.otpExpired = GoError.invalidOTP) = false ∧
    (authVerifyOTP expiredRowAuthState uuidA "123456" "email").1 =
      .error .invalidOrExpiredOTP ∧
    decide (GoError.invalidOrExpiredOTP = GoError.otpExpired) = false :=
  ⟨rfl, rfl, rfl, rfl⟩

/-- C2 (amended): once a (target, targetType, code) triple has been
successfully verified, a second `VerifyOTP` call with the same triple
always fails — but with `ErrOTPExpired` (the cache entry is gone and an
absent key reads back as the empty string), not `ErrInvalidOTP`. -/
theorem claim_C2 (s : OTPServiceState) (target : String) (tt : OTPTarget)
    (code : String) (s' : OTPServiceState)
    (hsucc : verifyOTP s target tt code = (.ok true, s')) :
    (verifyOTP s' target tt code).1 = .error .otpExpired := by
  simp only [verifyOTP] at hsucc
  split at hsucc
  · simp at hsucc
  · split at hsucc
    · simp at hsucc
    · split at hsucc
      · simp at hsucc
      · split at hsucc
        · simp at hsucc
        · split at hsucc
          · simp at hsucc
          · split at hsucc
            · simp at hsucc
            · rename_i r1 hdel xo uid hp xe s2 hact
              have hs2 : s2 = s' := by simpa using hsucc
              subst hs2
              obtain ⟨hdown, hr1⟩ := clientDelete_ok s.redis (otpKey tt target) r1 hdel
              obtain ⟨hredis, hnow⟩ :=
                activateUser_ok_frame { s with redis := r1 } uid tt s2 hact
              have hd2 : s2.redis.down = false := by
                rw [hredis, hr1]
                exact hdown
              have hl2 : s2.redis.lookup s2.now (otpKey tt target) = none := by
                rw [hredis, hr1]
                exact lookup_removeKey_self s.redis s2.now (otpKey tt target)
              rw [verifyOTP_cacheMiss s2 target tt code hd2 hl2]

/-- Witness for C2: a concrete successful verification followed by a
repeat of the same call. -/
theorem claim_C2_witness :
    (verifyOTP rawEntryStateAfter uuidA .customer "123456").1 = .error .otpExpired :=
  claim_C2 rawEntryState uuidA .customer "123456" rawEntryStateAfter (by rfl)

/-- C2 counterexample: the repeat call fails with `ErrOTPExpired`, not
the `InvalidOTP` the claim states. -/
theorem claim_C2_counterexample :
    (verifyOTP rawEntryState uuidA .customer "123456").1 = .ok true ∧
    (verifyOTP (verifyOTP rawEntryState uuidA .customer "123456").2
        uuidA .customer "123456").1 = .error .otpExpired ∧
    decide (GoError.otpExpired = GoError.invalidOTP) = false :=
  ⟨rfl, rfl, rfl⟩

/-- C3: the rate-limited call generates no code and performs no writes,
and a call after the cooldown succeeds — but the error returned is
`models.ErrOTPExpired` ("OTP has expired"), not the rate-limit error:
`service.ErrRateLimitExceeded` is declared in the source yet never
returned.  The theorem evaluates the code at the failing input: a second
`GenerateOTP` for target `t` within the 3-minute cooldown errors with
`otpExpired`, and the same call at instant 3 (cooldown elapsed)
succeeds. -/
theorem claim_C3 :
    generateOTP cfgDefault (fun _ => 7) emptyState "t" .customer =
      .ok ("123456", afterFirstGenerate) ∧
    generateOTP cfgDefault (fun _ => 7) afterFirstGenerate "t" .customer =
      .error .otpExpired ∧
    decide (GoError.otpExpired = GoError.rateLimitExceeded) = false ∧
    (generateOTP cfgDefault (fun _ => 7) { afterFirstGenerate with now := 3 }
        "t" .customer).toOption.isSome = true :=
  ⟨rfl, rfl, rfl, rfl⟩

/-- C4 (amended): the rate limiter's `IsAllowed` does fail open —
returning true whenever the backing cache is unreachable — but
`GenerateOTP` never consults it: it checks the rate-limit key itself via
`Exists` and fails closed, returning the error, when the cache is
unreachable. -/
theorem claim_C4 :
    (∀ (entries : List RedisEntry) (now : Nat) (pre key : String) (limit : Nat),
        isAllowed { entries := entries, down := true } now pre key limit = true) ∧
    (∀ (cfg : OTPConfig) (rand : Nat → Nat) (s : OTPServiceState) (target : String)
        (tt : OTPTarget), s.redis.down = true →
        generateOTP cfg rand s target tt = .error .redisConnErr) := by
  constructor
  · intro entries now pre key limit
    unfold isAllowed
    rw [clientGet_down { entries := entries, down := true } now (pre ++ key) rfl]
  · intro cfg rand s target tt hd
    unfold generateOTP clientExists redisRawExists
    simp [hd]

/-- Witness for C4: the fail-open limiter and the fail-closed generation
at a concrete unreachable cache. -/
theorem claim_C4_witness :
    isAllowed downRedis 0 "otp:ratelimit:" "t" 3 = true ∧
    generateOTP cfgDefault (fun _ => 7) downState "t" .customer = .error .redisConnErr :=
  ⟨claim_C4.1 [] 0 "otp:ratelimit:" "t" 3,
   claim_C4.2 cfgDefault (fun _ => 7) downState "t" .customer rfl⟩

/-- C4 counterexample: with the cache unreachable, `GenerateOTP` returns
the Redis error instead of succeeding as the claim states (while
`IsAllowed` itself does return true). -/
theorem claim_C4_counterexample :
    generateOTP cfgDefault (fun _ => 7) downState "t" .customer = .error .redisConnErr ∧
    (generateOTP cfgDefault (fun _ => 7) downState "t" .customer).toOption.isSome = false ∧
    isAllowed downRedis 0 "otp:ratelimit:" "t" 3 = true :=
  ⟨rfl, rfl, rfl⟩

/-- C5: the round trip is broken in the code.  `GenerateOTP` stores the
JSON-marshalled code (with quote characters) through `redisClient.Set`,
while `VerifyOTP` compares the raw stored bytes against the submitted
code, so `Generate` for an existing customer followed by `Verify` with
the returned code fails with `ErrInvalidOTP`; the cache entry is not
consumed and the account is never activated.  The theorem evaluates the
code at the failing input. -/
theorem claim_C5 :
    generateOTP cfgDefault (fun _ => 7) oneCustomerState uuidA .customer =
      .ok ("123456", afterGenForCustomer) ∧
    afterGenForCustomer.redis.lookup 0 (otpKey .customer uuidA) =
      some (jsonMarshalString "123456") ∧
    decide (jsonMarshalString "123456" = "123456") = false ∧
    verifyOTP afterGenForCustomer uuidA .customer "123456" =
      (.error .invalidOTP, afterGenForCustomer) ∧
    afterGenForCustomer.customers = [{ id := uuidA, isActive := false }] :=
  ⟨rfl, rfl, rfl, rfl, rfl⟩

/-- C6: when an override code is configured, every generated code is
exactly that value regardless of the random draws — but the override is
not OFF by default: `LoadConfig` falls back to "123456" whenever
`OTP_DEFAULT` is unset or empty, so the override is always enabled
unless deliberately set to a different (still non-empty) value.  The
theorem evaluates the configuration loader at the failing input (an
empty environment) and shows that an empty environment value cannot
disable the override. -/
theorem claim_C6 :
    (loadOTPConfig (fun _ => "")).defaultOTP = "123456" ∧
    decide ((loadOTPConfig (fun _ => "")).defaultOTP = "") = false ∧
    (∀ env : String → String, decide ((loadOTPConfig env).defaultOTP = "") = false) ∧
    generateRandomOTP cfgDefault (fun _ => 0) = "123456" ∧
    generateRandomOTP cfgDefault (fun _ => 9) = "123456" ∧
    generateRandomOTP { cfgDefault with defaultOTP := "999999" } (fun _ => 0) = "999999" := by
  refine ⟨rfl, rfl, ?_, rfl, rfl, rfl⟩
  intro env
  simp only [loadOTPConfig, getEnvOrDefault]
  by_cases henv : env "OTP_DEFAULT" = ""
  · simp [henv]
  · simp [henv]

/-- C7: with no override configured, every code returned by a successful
`GenerateOTP` is a string of decimal digits of the configured length,
and the configured length defaults to 6. -/
theorem claim_C7 (cfg : OTPConfig) (rand : Nat → Nat) (s : OTPServiceState)
    (target : String) (tt : OTPTarget) (code : String) (rest : OTPServiceState)
    (hdef : cfg.defaultOTP = "")
    (hgen : generateOTP cfg rand s target tt = .ok (code, rest)) :
    code.length = cfg.length ∧ (∀ c ∈ code.data, c.isDigit = true) ∧
      (loadOTPConfig (fun _ => "")).length = 6 := by
  have hcode : code = generateRandomOTP cfg rand := by
    simp only [generateOTP] at hgen
    split at hgen
    · simp at hgen
    · simp at hgen
    · split at hgen
      · simp at hgen
      · split at hgen
        · simp at hgen
        · simp at hgen
          exact hgen.1.symm
  subst hcode
  refine ⟨?_, ?_, rfl⟩
  · simp [generateRandomOTP, hdef, String.length]
  · intro c hc
    simp only [generateRandomOTP, hdef, ne_eq, not_true_eq_false, if_false] at hc
    have hmem : c ∈ (List.range cfg.length).map (fun i => Char.ofNat (rand i % 10 + 48)) := hc
    obtain ⟨i, _, hi⟩ := List.mem_map.mp hmem
    have hlt : rand i % 10 < 10 := Nat.mod_lt _ (by norm_num)
    have hall : ∀ n, n < 10 → (Char.ofNat (n + 48)).isDigit = true := by decide
    rw [← hi]
    exact hall _ hlt

/-- Witness for C7: a concrete generation with the override disabled and
a constant stream drawing 7 yields the six-digit code 777777. -/
theorem claim_C7_witness :
    ("777777" : String).length = cfgNoOverride.length ∧
    (∀ c ∈ ("777777" : String).data, c.isDigit = true) ∧
    (loadOTPConfig (fun _ => "")).length = 6 :=
  claim_C7 cfgNoOverride (fun _ => 7) emptyState "t" .customer "777777"
    afterGenNoOverride rfl (by rfl)

/-- C8: for a gym-owner ID with no OTP in the cache,
`GymOwnerService.VerifyOTP` with the empty string as the submitted code
returns success: the absent key reads back as the empty string with no
error, which compares equal to the empty submission. -/
theorem claim_C8 (st : GymOwnerState) (ownerID : String)
    (hd : st.redis.down = false)
    (habs : st.redis.lookup st.now ("otp:gym_owner:" ++ ownerID) = none) :
    (gymOwnerVerifyOTP st ownerID "").1 = .ok () := by
  simp only [gymOwnerVerifyOTP]
  rw [clientGet_absent st.redis st.now ("otp:gym_owner:" ++ ownerID) hd habs]
  rfl

/-- Witness for C8: an owner that never received an OTP is verified by
the empty submission. -/
theorem claim_C8_witness : (gymOwnerVerifyOTP oneOwnerState uuidA "").1 = .ok () :=
  claim_C8 oneOwnerState uuidA rfl rfl

/-- C9: in `OTPService.VerifyOTP` the cache entry is deleted before the
target is parsed and before activation, so whenever the submitted code
matches the cached one but a later step fails (unparsable target, or
account missing so activation fails), the call errors while the OTP has
already been consumed, and a retry with the same code fails (with
`ErrOTPExpired`). -/
theorem claim_C9 (s : OTPServiceState) (target : String) (tt : OTPTarget) (code : String)
    (hd : s.redis.down = false)
    (hstored : s.redis.lookup s.now (otpKey tt target) = some code)
    (hne : code ≠ "")
    (hfail : uuidParse target = none ∨
      activateUser { s with redis := s.redis.removeKey (otpKey tt target) } target tt =
        .error .recordNotFound) :
    (verifyOTP s target tt code).2 =
      { s with redis := s.redis.removeKey (otpKey tt target) } ∧
    ((verifyOTP s target tt code).1 = .error .uuidParseError ∨
     (verifyOTP s target tt code).1 = .error .recordNotFound) ∧
    (verifyOTP s target tt code).2.redis.lookup s.now (otpKey tt target) = none ∧
    (verifyOTP (verifyOTP s target tt code).2 target tt code).1 = .error .otpExpired := by
  have hget : clientGet s.redis s.now (otpKey tt target) = .ok code := by
    unfold clientGet redisRawGet
    simp [hd, hstored]
  have hdel : clientDelete s.redis (otpKey tt target) =
      .ok (s.redis.removeKey (otpKey tt target)) := by
    unfold clientDelete redisRawDel
    simp [hd]
  have hres : verifyOTP s target tt code =
      (if uuidParse target = none then .error .uuidParseError else .error .recordNotFound,
        { s with redis := s.redis.removeKey (otpKey tt target) }) := by
    simp only [verifyOTP, hget]
    rw [if_neg hne, if_neg (not_not_intro rfl), hdel]
    cases hp : uuidParse target with
    | none => simp [hp]
    | some uid =>
      have huid : uid = target := by
        have hc : isCanonicalUUID target = true := by
          by_contra hcf
          simp only [Bool.not_eq_true] at hcf
          simp [uuidParse, hcf] at hp
        simp only [uuidParse, hc, if_true] at hp
        exact (Option.some.inj hp).symm
      subst huid
      rcases hfail with hpf | hact
      · rw [hp] at hpf
        exact Option.noConfusion hpf
      · simp [hact]
  have hmiss : (verifyOTP s target tt code).2.redis.lookup s.now (otpKey tt target) = none := by
    rw [hres]
    exact lookup_removeKey_self s.redis s.now (otpKey tt target)
  refine ⟨by rw [hres], ?_, hmiss, ?_⟩
  · rw [hres]
    by_cases hp : uuidParse target = none
    · exact Or.inl (by simp [hp])
    · exact Or.inr (by simp [hp])
  · have hd2 : (verifyOTP s target tt code).2.redis.down = false := by
      rw [hres]
      exact hd
    have hn2 : (verifyOTP s target tt code).2.now = s.now := by
      rw [hres]
    rw [verifyOTP_cacheMiss (verifyOTP s target tt code).2 target tt code hd2
      (hn2 ▸ hmiss)]

/-- Witness for C9: a matching raw cache entry under the non-UUID target
`+15551234567`; verification consumes the entry, fails on UUID parsing,
and the retry fails with `ErrOTPExpired`. -/
theorem claim_C9_witness :
    (verifyOTP phoneTargetState "+15551234567" .customer "123456").2 =
      { phoneTargetState with
          redis := phoneTargetState.redis.removeKey (otpKey .customer "+15551234567") } ∧
    ((verifyOTP phoneTargetState "+15551234567" .customer "123456").1 =
        .error .uuidParseError ∨
     (verifyOTP phoneTargetState "+15551234567" .customer "123456").1 =
        .error .recordNotFound) ∧
    (verifyOTP phoneTargetState "+15551234567" .customer "123456").2.redis.lookup 0
      (otpKey .customer "+15551234567") = none ∧
    (verifyOTP (verifyOTP phoneTargetState "+15551234567" .customer "123456").2
      "+15551234567" .customer "123456").1 = .error .otpExpired :=
  claim_C9 phoneTargetState "+15551234567" .customer "123456" rfl rfl (by decide)
    (Or.inl rfl)

/-- C10: `GymOwnerService.VerifyOTP` never modifies the gym-owner table
(the activation block is commented out in the source): the owner rows
and the clock are unchanged on every path, and every cache key other
than the owner's OTP key reads back unchanged. -/
theorem claim_C10 (st : GymOwnerState) (ownerID otp : String) :
    (gymOwnerVerifyOTP st ownerID otp).2.owners = st.owners ∧
    (gymOwnerVerifyOTP st ownerID otp).2.now = st.now ∧
    ∀ k, k ≠ "otp:gym_owner:" ++ ownerID →
      (gymOwnerVerifyOTP st ownerID otp).2.redis.lookup st.now k =
        st.redis.lookup st.now k := by
  simp only [gymOwnerVerifyOTP]
  split
  · exact ⟨rfl, rfl, fun k hk => rfl⟩
  · split
    · exact ⟨rfl, rfl, fun k hk => rfl⟩
    · refine ⟨rfl, rfl, fun k hk => ?_⟩
      cases hdel : clientDelete st.redis ("otp:gym_owner:" ++ ownerID) with
      | error e => rfl
      | ok r =>
        obtain ⟨hd, hr⟩ := clientDelete_ok st.redis ("otp:gym_owner:" ++ ownerID) r hdel
        show r.lookup st.now k = st.redis.lookup st.now k
        rw [hr]
        exact lookup_removeKey_ne st.redis st.now k ("otp:gym_owner:" ++ ownerID) hk

/-- Witness for C10: a successful concrete verification leaves the owner
row untouched and an unrelated key unchanged. -/
theorem claim_C10_witness :
    (gymOwnerVerifyOTP oneOwnerState uuidA "").2.owners = oneOwnerState.owners ∧
    (gymOwnerVerifyOTP oneOwnerState uuidA "").2.now = oneOwnerState.now ∧
    (gymOwnerVerifyOTP oneOwnerState uuidA "").2.redis.lookup oneOwnerState.now "other" =
      oneOwnerState.redis.lookup oneOwnerState.now "other" := by
  have h := claim_C10 oneOwnerState uuidA ""
  exact ⟨h.1, h.2.1, h.2.2 "other" (by decide)⟩

end GymOTP
